import Mathlib

/-
Verification of the dew heater bands controller (src/dew_heater.py).

Modelling conventions (shallow embedding):

- A `DewHeaterHandler` record models the Python class of the same name.
  `status` is the published `_status` dict (auto flag plus per-channel
  telescope map), `channels` is the key list of the `relays` dict,
  `active` gives the `is_active` hardware state of each
  `DigitalOutputDevice`, and `temp_threshold`, `time_threshold`, `time`
  model the private fields of the same names.

- Timestamps are integer seconds (`Int`); the two `datetime.utcnow()`
  reads inside one control cycle are modelled by a single parameter
  `now`.  The Python expression `(datetime.utcnow() - self._time).seconds`
  reads the seconds COMPONENT of the timedelta (days are discarded):
  Python normalises a timedelta to `days = d / 86400` (floor) and
  `seconds = d % 86400` (floor mod, hence in `[0, 86400)`), which for an
  integral delta `d` is exactly `Int` euclidean `d % 86400`; this is
  modelled by `tdSeconds`.

- Temperatures, dew points and `temp_threshold` are modelled as
  rationals: every finite Python float value is a binary rational, and
  the hysteresis branch only subtracts and compares them.

- The combined outcome of `_get_meteo_data` plus the dew-point
  computation in `update_status` (lines 140-145 of the source) enters
  the cycle as an `Option (ℚ × ℚ)` parameter: `none` models any
  exception raised by the fetch or by the computation (caught by the
  `except` clause of lines 146-150), and `some (temperature, dew_point)`
  models a successful run.  The dew-point formula itself is modelled
  separately: `dew_point` over the reals, and `dew_point_np` over a
  small IEEE-style value domain `FVal` capturing the `numpy` semantics
  of `np.log10` at nonpositive arguments.

- Side effects other than state mutation (hardware actuation calls,
  rebuilds of the published status map, log lines) are returned as an
  explicit `Event` trace.  The `update_status` model is a total
  function: the source catches every exception of the fetch/compute
  block, so a cycle always returns normally.
-/

/-- Observable side effects of one operation: hardware actuation of a
relay channel (`DigitalOutputDevice.on` or `.off`), a rebuild of the
published status map (`_update_relay_status`), and the log lines emitted
by `update_status`. -/
inductive Event where
  | hwOn : String → Event
  | hwOff : String → Event
  | statusUpdate : Event
  | logDaytime : Event
  | logStartAuto : Event
  | logFailure : Event
  | logTempDew : Event
  | logEnabled : Event
  | logDisabled : Event
  | logWaiting : Event
  deriving DecidableEq

/-- The published `_status` dict: `{"auto": bool, "telescope": {name: bool}}`
(src/dew_heater.py:82, 111). -/
structure ControllerStatus where
  auto : Bool
  telescope : List (String × Bool)
  deriving DecidableEq

/-- State of the `DewHeaterHandler` Python object (src/dew_heater.py:74-93).
`channels` lists the keys of the `relays` dict (fixed at construction);
`active` is the `is_active` state of the corresponding relay device. -/
structure DewHeaterHandler where
  status : ControllerStatus
  channels : List String
  active : String → Bool
  temp_threshold : ℚ
  time_threshold : Int
  time : Int

/-- The `auto_update` property (src/dew_heater.py:98-100): reads
`status["auto"]`. -/
def auto_update (st : DewHeaterHandler) : Bool :=
  st.status.auto

/-- The `auto_update` setter (src/dew_heater.py:102-104): writes
`status["auto"]`. -/
def set_auto_update (st : DewHeaterHandler) (value : Bool) : DewHeaterHandler :=
  { st with status := { st.status with auto := value } }

/-- `_update_relay_status` (src/dew_heater.py:110-111): rebuilds the
`"telescope"` entry of the status dict from the current relay states. -/
def update_relay_status (st : DewHeaterHandler) : DewHeaterHandler :=
  { st with
    status := { st.status with
      telescope := st.channels.map (fun c => (c, st.active c)) } }

/-- `relay_on` (src/dew_heater.py:113-116): a no-op when the relay is
already active, otherwise actuate the device and rebuild the status map.
(For a name missing from the dict the source raises `KeyError`; all call
sites only pass configured channel names, and the model treats the
lookup as a plain function.) -/
def relay_on (st : DewHeaterHandler) (c : String) : DewHeaterHandler × List Event :=
  if st.active c then (st, [])
  else
    (update_relay_status { st with active := fun x => if x = c then true else st.active x },
     [Event.hwOn c, Event.statusUpdate])

/-- `relay_off` (src/dew_heater.py:118-121): dual of `relay_on`. -/
def relay_off (st : DewHeaterHandler) (c : String) : DewHeaterHandler × List Event :=
  if st.active c then
    (update_relay_status { st with active := fun x => if x = c then false else st.active x },
     [Event.hwOff c, Event.statusUpdate])
  else (st, [])

/-- The `for telescope in self.relays: self.relay_on(telescope)` loop of
`update_status` (src/dew_heater.py:157-158), over an explicit key list. -/
def relayAllOnAux : DewHeaterHandler → List String → DewHeaterHandler × List Event
  | st, [] => (st, [])
  | st, c :: cs =>
    let r := relay_on st c
    let rest := relayAllOnAux r.1 cs
    (rest.1, r.2 ++ rest.2)

/-- The `for telescope in self.relays: self.relay_off(telescope)` loops of
`update_status` (src/dew_heater.py:135-136, 149-150, 161-162). -/
def relayAllOffAux : DewHeaterHandler → List String → DewHeaterHandler × List Event
  | st, [] => (st, [])
  | st, c :: cs =>
    let r := relay_off st c
    let rest := relayAllOffAux r.1 cs
    (rest.1, r.2 ++ rest.2)

/-- Seconds component of a Python `timedelta` of `d` integral seconds:
`days = d / 86400` rounded toward minus infinity and
`seconds = d - 86400 * days`, i.e. euclidean `d % 86400`.  This models
the `.seconds` read on line 159 of the source. -/
def tdSeconds (d : Int) : Int :=
  d % 86400

/-- One control cycle: `update_status` (src/dew_heater.py:130-164).
`sunUp` is the value of `self._sun_is_up(self._ts_skyfield.now())`;
`fetch` is the outcome of the meteo fetch plus dew-point computation
(`none` = an exception was raised and caught); `now` is the cycle's
`datetime.utcnow()` reading in integral seconds.  The `_updater_lock`
serialises cycles, so one cycle is modelled as one atomic function. -/
def update_status (st : DewHeaterHandler) (sunUp : Bool) (fetch : Option (ℚ × ℚ))
    (now : Int) : DewHeaterHandler × List Event :=
  if auto_update st then
    if sunUp then
      let r := relayAllOffAux st st.channels
      (r.1, Event.logDaytime :: r.2)
    else
      match fetch with
      | none =>
        let r := relayAllOffAux st st.channels
        (r.1, Event.logStartAuto :: Event.logFailure :: r.2)
      | some (temperature, dewPoint) =>
        let delta := temperature - dewPoint
        if delta < st.temp_threshold then
          let st1 := { st with time := now }
          let r := relayAllOnAux st1 st1.channels
          (r.1, Event.logStartAuto :: Event.logTempDew :: Event.logEnabled :: r.2)
        else if delta > st.temp_threshold ∧ tdSeconds (now - st.time) > st.time_threshold then
          let r := relayAllOffAux st st.channels
          (r.1, Event.logStartAuto :: Event.logTempDew :: Event.logDisabled :: r.2)
        else
          (st, [Event.logStartAuto, Event.logTempDew, Event.logWaiting])
  else (st, [])

/-- `__init__` (src/dew_heater.py:79-92): the status dict starts as
`{"auto": auto}` and `_update_relay_status` then adds the telescope map;
`_time` is initialised `time_threshold + 1` seconds in the past. -/
def initHandler (channels : List String) (active0 : String → Bool) (auto : Bool)
    (temp_threshold : ℚ) (time_threshold : Int) (now0 : Int) : DewHeaterHandler :=
  update_relay_status
    { status := { auto := auto, telescope := [] }
      channels := channels
      active := active0
      temp_threshold := temp_threshold
      time_threshold := time_threshold
      time := now0 - (time_threshold + 1) }

/-- Validated parameters of a `{"cmd": "set", "params": ...}` request,
after the assertion block of `webserver_route_api`
(src/dew_heater.py:194-202): each key optional, at least one present,
telescope keys drawn from the configured channel names. -/
structure SetParams where
  auto : Option Bool
  telescope : Option (List (String × Bool))

/-- Responses of the `set` branch of `webserver_route_api`. -/
inductive ApiResponse where
  | done : ApiResponse
  | errAutoMode : ApiResponse
  deriving DecidableEq

/-- The `for telescope in updater.relays: if telescope in params: ...` loop
of the manual telescope command (src/dew_heater.py:217-220): iterate the
configured channels in order and apply `relay_on`/`relay_off` to those
named in the request. -/
def applyTelescopeAux : DewHeaterHandler → List String → List (String × Bool) →
    DewHeaterHandler × List Event
  | st, [], _ => (st, [])
  | st, c :: cs, cmds =>
    match cmds.lookup c with
    | some b =>
      let r := if b then relay_on st c else relay_off st c
      let rest := applyTelescopeAux r.1 cs cmds
      (rest.1, r.2 ++ rest.2)
    | none => applyTelescopeAux st cs cmds

/-- The `set` branch of `webserver_route_api` (src/dew_heater.py:208-221):
first, if an `"auto"` key is present, write the auto flag and run an
immediate `update_status` cycle; then, if a `"telescope"` key is present,
reject it when the (possibly just-written) auto flag is set, else apply
the per-channel commands; finally answer `done`. -/
def handle_set (st : DewHeaterHandler) (p : SetParams) (sunUp : Bool)
    (fetch : Option (ℚ × ℚ)) (now : Int) : DewHeaterHandler × ApiResponse × List Event :=
  let r1 :=
    match p.auto with
    | some b => update_status (set_auto_update st b) sunUp fetch now
    | none => (st, [])
  match p.telescope with
  | some cmds =>
    if auto_update r1.1 then (r1.1, ApiResponse.errAutoMode, r1.2)
    else
      let r2 := applyTelescopeAux r1.1 st.channels cmds
      (r2.1, ApiResponse.done, r1.2 ++ r2.2)
  | none => (r1.1, ApiResponse.done, r1.2)

/-- Consistency of the published snapshot: the `"telescope"` map lists
exactly the configured channels, each paired with its actual relay
state. -/
def statusConsistent (st : DewHeaterHandler) : Prop :=
  st.status.telescope = st.channels.map (fun c => (c, st.active c))

/-- Sample state with both channels off (matches the configuration of
src/dew_heater.py:64-67, thresholds from the defaults on line 81). -/
def sampleHandler : DewHeaterHandler :=
  { status := { auto := true, telescope := [("main", false), ("guide", false)] }
    channels := ["main", "guide"]
    active := fun _ => false
    temp_threshold := 4
    time_threshold := 1800
    time := 0 }

/-- Sample state with both channels on. -/
def sampleHandlerOn : DewHeaterHandler :=
  { status := { auto := true, telescope := [("main", true), ("guide", true)] }
    channels := ["main", "guide"]
    active := fun _ => true
    temp_threshold := 4
    time_threshold := 1800
    time := 0 }

/- Basic field lemmas for the relay operations. -/

theorem relay_on_active (st : DewHeaterHandler) (c x : String) :
    ((relay_on st c).1).active x = if x = c then true else st.active x := by
  unfold relay_on update_relay_status
  by_cases h : st.active c = true <;> simp [h] <;> by_cases hx : x = c <;> simp [hx, h]

theorem relay_off_active (st : DewHeaterHandler) (c x : String) :
    ((relay_off st c).1).active x = if x = c then false else st.active x := by
  unfold relay_off update_relay_status
  by_cases h : st.active c = true <;> simp [h] <;> by_cases hx : x = c <;>
    simp [hx, h]

theorem relay_on_channels (st : DewHeaterHandler) (c : String) :
    ((relay_on st c).1).channels = st.channels := by
  unfold relay_on update_relay_status
  by_cases h : st.active c = true <;> simp [h]

theorem relay_off_channels (st : DewHeaterHandler) (c : String) :
    ((relay_off st c).1).channels = st.channels := by
  unfold relay_off update_relay_status
  by_cases h : st.active c = true <;> simp [h]

theorem relay_on_time (st : DewHeaterHandler) (c : String) :
    ((relay_on st c).1).time = st.time := by
  unfold relay_on update_relay_status
  by_cases h : st.active c = true <;> simp [h]

theorem relay_off_time (st : DewHeaterHandler) (c : String) :
    ((relay_off st c).1).time = st.time := by
  unfold relay_off update_relay_status
  by_cases h : st.active c = true <;> simp [h]

theorem relay_on_auto (st : DewHeaterHandler) (c : String) :
    ((relay_on st c).1).status.auto = st.status.auto := by
  unfold relay_on update_relay_status
  by_cases h : st.active c = true <;> simp [h]

theorem relay_off_auto (st : DewHeaterHandler) (c : String) :
    ((relay_off st c).1).status.auto = st.status.auto := by
  unfold relay_off update_relay_status
  by_cases h : st.active c = true <;> simp [h]

/- Lemmas about the actuation loops. -/

theorem relayAllOnAux_active (L : List String) (st : DewHeaterHandler) (x : String) :
    ((relayAllOnAux st L).1).active x = if x ∈ L then true else st.active x := by
  induction L generalizing st with
  | nil => simp [relayAllOnAux]
  | cons c cs ih =>
    simp only [relayAllOnAux, ih, relay_on_active]
    by_cases hx : x ∈ cs <;> by_cases hc : x = c <;> simp [hx, hc]

theorem relayAllOffAux_active (L : List String) (st : DewHeaterHandler) (x : String) :
    ((relayAllOffAux st L).1).active x = if x ∈ L then false else st.active x := by
  induction L generalizing st with
  | nil => simp [relayAllOffAux]
  | cons c cs ih =>
    simp only [relayAllOffAux, ih, relay_off_active]
    by_cases hx : x ∈ cs <;> by_cases hc : x = c <;> simp [hx, hc]

theorem relayAllOnAux_time (L : List String) (st : DewHeaterHandler) :
    ((relayAllOnAux st L).1).time = st.time := by
  induction L generalizing st with
  | nil => simp [relayAllOnAux]
  | cons c cs ih => simp [relayAllOnAux, ih, relay_on_time]

theorem relayAllOffAux_time (L : List String) (st : DewHeaterHandler) :
    ((relayAllOffAux st L).1).time = st.time := by
  induction L generalizing st with
  | nil => simp [relayAllOffAux]
  | cons c cs ih => simp [relayAllOffAux, ih, relay_off_time]

/-
The dew-point computation (src/dew_heater.py:142-145):

    a, m, Tn = 6.116441, 7.591386, 240.7263
    Pws = a * 10**(m * temperature / (temperature + Tn))
    Pw = Pws * humidity / 100
    dew_point = round(Tn / ((m / np.log10(Pw / a)) - 1), 1)

Two models are given.  `dew_point` idealises the IEEE doubles as real
numbers (exact on the mathematical formula; `round(x, 1)` becomes
`round1`, with the half-way tie convention irrelevant off ties).
`dew_point_np` runs the same expression over `FVal`, a small IEEE-style
domain of finite reals, infinities and NaN, which captures the decisive
library fact for nonpositive humidity: `np.log10` of a nonpositive
float does not raise an exception; it returns `-inf` at `0.0` and `nan`
at negative arguments (with a warning only).  Signed zero is conflated
with zero (harmless on the modelled paths: `m / -inf = -0.0` and
`-0.0 - 1.0 = -1.0` agree with `0 - 1 = -1`).  Float overflow of
`10**x` (which in CPython raises `OverflowError`) cannot occur for
`temperature > -Tn`, where the exponent is bounded above by `m`.
-/

/-- Rounding to one decimal place: `round(x, 1)`. -/
noncomputable def round1 (x : ℝ) : ℝ :=
  ((round (10 * x) : ℤ) : ℝ) / 10

/-- The dew-point formula exactly as computed on lines 142-145 of the
source, idealised over the reals. -/
noncomputable def dew_point (temperature humidity : ℝ) : ℝ :=
  let a : ℝ := 6.116441
  let m : ℝ := 7.591386
  let Tn : ℝ := 240.7263
  let Pws := a * (10 : ℝ) ^ (m * temperature / (temperature + Tn))
  let Pw := Pws * humidity / 100
  round1 (Tn / ((m / Real.logb 10 (Pw / a)) - 1))

/-- Modelled from the spec (section 4.3 DewPointCalculator): the
Magnus-Tetens approximation with constants a=6.116441, m=7.591386,
Tn=240.7263: `Pws = a * 10 ^ (m * T / (T + Tn))`, `Pw = Pws * RH / 100`,
`dew_point = Tn / ((m / log10(Pw / a)) - 1)`, rounded to one decimal
place. -/
noncomputable def dew_point_spec (temperature humidity : ℝ) : ℝ :=
  round1 (240.7263 /
    ((7.591386 /
        Real.logb 10
          ((6.116441 * (10 : ℝ) ^ (7.591386 * temperature / (temperature + 240.7263))
              * humidity / 100) / 6.116441)) - 1))

/-- IEEE-double-style value domain: a finite real, an infinity, or NaN. -/
inductive FVal where
  | finite : ℝ → FVal
  | posInf : FVal
  | negInf : FVal
  | nan : FVal

open Classical in
/-- Float addition on `FVal` (finite and infinite cases; signed zero
conflated with zero). -/
noncomputable def fadd : FVal → FVal → FVal
  | FVal.finite x, FVal.finite y => FVal.finite (x + y)
  | FVal.finite _, FVal.posInf => FVal.posInf
  | FVal.finite _, FVal.negInf => FVal.negInf
  | FVal.posInf, FVal.finite _ => FVal.posInf
  | FVal.negInf, FVal.finite _ => FVal.negInf
  | FVal.posInf, FVal.posInf => FVal.posInf
  | FVal.negInf, FVal.negInf => FVal.negInf
  | _, _ => FVal.nan

open Classical in
/-- Float subtraction on `FVal`. -/
noncomputable def fsub : FVal → FVal → FVal
  | FVal.finite x, FVal.finite y => FVal.finite (x - y)
  | FVal.finite _, FVal.posInf => FVal.negInf
  | FVal.finite _, FVal.negInf => FVal.posInf
  | FVal.posInf, FVal.finite _ => FVal.posInf
  | FVal.negInf, FVal.finite _ => FVal.negInf
  | FVal.posInf, FVal.negInf => FVal.posInf
  | FVal.negInf, FVal.posInf => FVal.negInf
  | _, _ => FVal.nan

open Classical in
/-- Float multiplication on `FVal`. -/
noncomputable def fmul : FVal → FVal → FVal
  | FVal.finite x, FVal.finite y => FVal.finite (x * y)
  | FVal.finite x, FVal.posInf =>
    if x = 0 then FVal.nan else if 0 < x then FVal.posInf else FVal.negInf
  | FVal.finite x, FVal.negInf =>
    if x = 0 then FVal.nan else if 0 < x then FVal.negInf else FVal.posInf
  | FVal.posInf, FVal.finite y =>
    if y = 0 then FVal.nan else if 0 < y then FVal.posInf else FVal.negInf
  | FVal.negInf, FVal.finite y =>
    if y = 0 then FVal.nan else if 0 < y then FVal.negInf else FVal.posInf
  | FVal.posInf, FVal.posInf => FVal.posInf
  | FVal.posInf, FVal.negInf => FVal.negInf
  | FVal.negInf, FVal.posInf => FVal.negInf
  | FVal.negInf, FVal.negInf => FVal.posInf
  | _, _ => FVal.nan

open Classical in
/-- Float division on `FVal`: a finite value divided by an infinity is
(signed) zero; division of a nonzero finite value by float zero yields a
signed infinity (numpy emits a warning, not an exception); `0/0` is NaN. -/
noncomputable def fdiv : FVal → FVal → FVal
  | FVal.finite x, FVal.finite y =>
    if y = 0 then (if x = 0 then FVal.nan else if 0 < x then FVal.posInf else FVal.negInf)
    else FVal.finite (x / y)
  | FVal.finite _, FVal.posInf => FVal.finite 0
  | FVal.finite _, FVal.negInf => FVal.finite 0
  | FVal.posInf, FVal.finite _ => FVal.posInf
  | FVal.negInf, FVal.finite _ => FVal.negInf
  | _, _ => FVal.nan

open Classical in
/-- `10**x` on `FVal` (the base-10 exponential of the source, finite
exponents idealised as exact; see the header note on overflow). -/
noncomputable def fpow10 : FVal → FVal
  | FVal.finite x => FVal.finite ((10 : ℝ) ^ x)
  | FVal.posInf => FVal.posInf
  | FVal.negInf => FVal.finite 0
  | FVal.nan => FVal.nan

open Classical in
/-- `np.log10` on `FVal`: `-inf` at zero, NaN at negative arguments —
a warning in numpy, never an exception. -/
noncomputable def np_log10 : FVal → FVal
  | FVal.finite x =>
    if x = 0 then FVal.negInf
    else if 0 < x then FVal.finite (Real.logb 10 x) else FVal.nan
  | FVal.posInf => FVal.posInf
  | FVal.negInf => FVal.nan
  | FVal.nan => FVal.nan

/-- `round(x, 1)` on `FVal`: with an `ndigits` argument Python returns a
float, so infinities and NaN pass through unchanged. -/
noncomputable def fround1 : FVal → FVal
  | FVal.finite x => FVal.finite (round1 x)
  | v => v

/-- The dew-point computation of src/dew_heater.py:142-145 over the
`FVal` float model, with the exact expression structure of the source:
`Pws = a * 10**(m * temperature / (temperature + Tn))`,
`Pw = Pws * humidity / 100`,
`round(Tn / ((m / np.log10(Pw / a)) - 1), 1)`. -/
noncomputable def dew_point_np (temperature humidity : FVal) : FVal :=
  let a := FVal.finite 6.116441
  let m := FVal.finite 7.591386
  let Tn := FVal.finite 240.7263
  let Pws := fmul a (fpow10 (fdiv (fmul m temperature) (fadd temperature Tn)))
  let Pw := fdiv (fmul Pws humidity) (FVal.finite 100)
  fround1 (fdiv Tn (fsub (fdiv m (np_log10 (fdiv Pw a))) (FVal.finite 1)))

/- Arithmetic helper: the seconds component never exceeds a nonnegative
total delta. -/

theorem tdSeconds_le (d : Int) (h : 0 ≤ d) : tdSeconds d ≤ d := by
  unfold tdSeconds
  omega

/- Preservation of the status-consistency invariant by each operation. -/

theorem statusConsistent_update_relay_status (st : DewHeaterHandler) :
    statusConsistent (update_relay_status st) := rfl

theorem statusConsistent_relay_on (st : DewHeaterHandler) (c : String)
    (h : statusConsistent st) : statusConsistent ((relay_on st c).1) := by
  unfold relay_on
  by_cases hc : st.active c = true
  · simpa [hc] using h
  · simp only [hc, Bool.false_eq_true, if_false]
    exact statusConsistent_update_relay_status _

theorem statusConsistent_relay_off (st : DewHeaterHandler) (c : String)
    (h : statusConsistent st) : statusConsistent ((relay_off st c).1) := by
  unfold relay_off
  by_cases hc : st.active c = true
  · simp only [hc, if_true]
    exact statusConsistent_update_relay_status _
  · simpa [hc] using h

theorem statusConsistent_relayAllOnAux (L : List String) (st : DewHeaterHandler)
    (h : statusConsistent st) : statusConsistent ((relayAllOnAux st L).1) := by
  induction L generalizing st with
  | nil => simpa [relayAllOnAux] using h
  | cons c cs ih => exact ih _ (statusConsistent_relay_on st c h)

theorem statusConsistent_relayAllOffAux (L : List String) (st : DewHeaterHandler)
    (h : statusConsistent st) : statusConsistent ((relayAllOffAux st L).1) := by
  induction L generalizing st with
  | nil => simpa [relayAllOffAux] using h
  | cons c cs ih => exact ih _ (statusConsistent_relay_off st c h)

/-- Claim C1: in an automatic night cycle with a successful meteo fetch and
dew-point computation, if `delta = temperature - dew_point` is strictly below
`temp_threshold`, the cycle stores `now` into `last_enabled_at` (`self._time`)
and ends with every configured channel On. -/
theorem claim_c1_enable_below_threshold (st : DewHeaterHandler) (T D : ℚ) (now : Int)
    (hauto : auto_update st = true) (hdelta : T - D < st.temp_threshold) :
    (update_status st false (some (T, D)) now).1.time = now ∧
    ∀ c ∈ st.channels, (update_status st false (some (T, D)) now).1.active c = true := by
  unfold update_status
  rw [hauto]
  simp only [if_true, Bool.false_eq_true, if_false, hdelta, if_pos]
  refine ⟨by simpa using relayAllOnAux_time st.channels _, ?_⟩
  intro c hc
  rw [relayAllOnAux_active]
  simp [hc]

/-- Witness for C1: at the sample configuration (threshold 4 degrees) with
temperature 5 and dew point 4, the cycle at time 100 enables both channels
and records the time. -/
theorem claim_c1_enable_below_threshold_witness :
    auto_update sampleHandler = true ∧ ((5 : ℚ) - 4 < sampleHandler.temp_threshold) ∧
    ((update_status sampleHandler false (some (5, 4)) 100).1.time = 100 ∧
      ∀ c ∈ sampleHandler.channels,
        (update_status sampleHandler false (some (5, 4)) 100).1.active c = true) :=
  ⟨rfl, by norm_num [sampleHandler],
    claim_c1_enable_below_threshold sampleHandler 5 4 100 rfl (by norm_num [sampleHandler])⟩

/-- Claim C2 (code bug witness): with both channels On, `last_enabled_at = 0`,
`delta = 10` above the threshold 4, and a cycle one day plus 100 seconds later
(true elapsed time 86500 s, far beyond the 1800 s hold window), the cycle
leaves the state completely unchanged — both channels stay On — because
line 159 of the source reads `timedelta.seconds` (the day-truncated seconds
component, here `86500 % 86400 = 100`) instead of the total elapsed time. -/
theorem claim_c2_seconds_component_bug :
    update_status sampleHandlerOn false (some (14, 4)) 86500 =
      (sampleHandlerOn, [Event.logStartAuto, Event.logTempDew, Event.logWaiting]) ∧
    (14 : ℚ) - 4 > sampleHandlerOn.temp_threshold ∧
    86500 - sampleHandlerOn.time > sampleHandlerOn.time_threshold ∧
    sampleHandlerOn.active "main" = true ∧ sampleHandlerOn.active "guide" = true :=
  ⟨by norm_num [update_status, tdSeconds, auto_update, sampleHandlerOn],
   by norm_num [sampleHandlerOn], by norm_num [sampleHandlerOn], rfl, rfl⟩

/-- Claim C3: in an automatic night cycle with a successful fetch, (a) if
`delta` equals the threshold, or exceeds it while the elapsed time since
`last_enabled_at` has not exceeded `time_threshold`, the cycle changes
nothing (same state, log lines only); (b) a channel that is On with
`last_enabled_at = t0` stays On in every such cycle executed strictly
before `t0 + time_threshold`. -/
theorem claim_c3_hysteresis_hold (st : DewHeaterHandler) (T D : ℚ) (now : Int)
    (hauto : auto_update st = true) (hle : st.time ≤ now) :
    ((T - D = st.temp_threshold ∨
        (st.temp_threshold < T - D ∧ now - st.time ≤ st.time_threshold)) →
      update_status st false (some (T, D)) now =
        (st, [Event.logStartAuto, Event.logTempDew, Event.logWaiting])) ∧
    (∀ c, st.active c = true → now - st.time < st.time_threshold →
      (update_status st false (some (T, D)) now).1.active c = true) := by
  constructor
  · intro hcase
    have hnotlt : ¬ T - D < st.temp_threshold := by
      rcases hcase with heq | ⟨hgt, _⟩
      · exact le_of_eq heq.symm |>.not_lt
      · exact (le_of_lt hgt).not_lt
    have hnotguard : ¬ (T - D > st.temp_threshold ∧
        tdSeconds (now - st.time) > st.time_threshold) := by
      rcases hcase with heq | ⟨hgt, hwin⟩
      · exact fun h => (heq ▸ h.1).false
      · intro h
        exact absurd h.2 (not_lt.mpr ((tdSeconds_le _ (by omega)).trans hwin))
    unfold update_status
    rw [hauto]
    simp [hnotlt, hnotguard]
  · intro c hc hwin
    rcases lt_trichotomy (T - D) st.temp_threshold with hlt | heq | hgt
    · unfold update_status
      rw [hauto]
      simp only [if_true, Bool.false_eq_true, if_false, hlt, if_pos]
      rw [relayAllOnAux_active]
      by_cases hm : c ∈ st.channels <;> simp [hm, hc]
    · have hnotlt : ¬ T - D < st.temp_threshold := le_of_eq heq.symm |>.not_lt
      have hnotguard : ¬ (T - D > st.temp_threshold ∧
          tdSeconds (now - st.time) > st.time_threshold) :=
        fun h => (heq ▸ h.1).false
      unfold update_status
      rw [hauto]
      simp [hnotlt, hnotguard, hc]
    · have hnotlt : ¬ T - D < st.temp_threshold := (le_of_lt hgt).not_lt
      have hnotguard : ¬ (T - D > st.temp_threshold ∧
          tdSeconds (now - st.time) > st.time_threshold) := by
        intro h
        exact absurd h.2 (not_lt.mpr ((tdSeconds_le _ (by omega)).trans (le_of_lt hwin)))
      unfold update_status
      rw [hauto]
      simp [hnotlt, hnotguard, hc]

/-- Witness for C3: with both channels On, threshold 4, hold window 1800 s,
delta 5 above threshold at 100 s after enabling, the cycle is a no-op. -/
theorem claim_c3_hysteresis_hold_witness :
    auto_update sampleHandlerOn = true ∧ sampleHandlerOn.time ≤ 100 ∧
    update_status sampleHandlerOn false (some (10, 5)) 100 =
      (sampleHandlerOn, [Event.logStartAuto, Event.logTempDew, Event.logWaiting]) :=
  ⟨rfl, by norm_num [sampleHandlerOn],
    (claim_c3_hysteresis_hold sampleHandlerOn 10 5 100 rfl (by norm_num [sampleHandlerOn])).1
      (Or.inr ⟨by norm_num [sampleHandlerOn], by norm_num [sampleHandlerOn]⟩)⟩

/-- Claim C4: an automatic cycle while the sun is up ends with every
configured channel Off, and the whole cycle result is independent of the
meteo outcome and of the clock (the fetch, the dew-point computation and
the hysteresis decision are never consulted in the daytime branch). -/
theorem claim_c4_daytime_all_off (st : DewHeaterHandler) (hauto : auto_update st = true) :
    (∀ fetch now, ∀ c ∈ st.channels,
      (update_status st true fetch now).1.active c = false) ∧
    (∀ f1 n1 f2 n2, update_status st true f1 n1 = update_status st true f2 n2) := by
  constructor
  · intro fetch now c hc
    unfold update_status
    rw [hauto]
    simp only [if_true]
    rw [relayAllOffAux_active]
    simp [hc]
  · intro f1 n1 f2 n2
    unfold update_status
    rw [hauto]
    simp

/-- Witness for C4: the daytime cycle on the all-on sample state switches
both channels off, with the same result under different meteo outcomes. -/
theorem claim_c4_daytime_all_off_witness :
    auto_update sampleHandlerOn = true ∧
    (∀ c ∈ sampleHandlerOn.channels,
      (update_status sampleHandlerOn true (some (5, 4)) 0).1.active c = false) ∧
    update_status sampleHandlerOn true (some (5, 4)) 0 =
      update_status sampleHandlerOn true none 99 :=
  ⟨rfl, (claim_c4_daytime_all_off sampleHandlerOn rfl).1 (some (5, 4)) 0,
    (claim_c4_daytime_all_off sampleHandlerOn rfl).2 (some (5, 4)) 0 none 99⟩

/-- Claim C5: in an automatic night cycle, when the meteo fetch or the
dew-point computation raises (modelled by `fetch = none`), the cycle turns
every configured channel Off, a failure log line is emitted, and the cycle
still returns normally (the model of `update_status` is a total function
because the source catches every exception of the fetch/compute block). -/
theorem claim_c5_failsafe_on_error (st : DewHeaterHandler) (now : Int)
    (hauto : auto_update st = true) :
    (∀ c ∈ st.channels, (update_status st false none now).1.active c = false) ∧
    Event.logFailure ∈ (update_status st false none now).2 := by
  constructor
  · intro c hc
    unfold update_status
    rw [hauto]
    simp only [if_true, Bool.false_eq_true, if_false]
    rw [relayAllOffAux_active]
    simp [hc]
  · unfold update_status
    rw [hauto]
    simp

/-- Witness for C5: a failing fetch at night on the all-on sample state
switches both channels off and logs the failure. -/
theorem claim_c5_failsafe_on_error_witness :
    auto_update sampleHandlerOn = true ∧
    ((∀ c ∈ sampleHandlerOn.channels,
        (update_status sampleHandlerOn false none 0).1.active c = false) ∧
      Event.logFailure ∈ (update_status sampleHandlerOn false none 0).2) :=
  ⟨rfl, claim_c5_failsafe_on_error sampleHandlerOn 0 rfl⟩

/- Evaluation lemmas for the float model. -/

theorem fdiv_finite_of_ne {x y : ℝ} (hy : y ≠ 0) :
    fdiv (FVal.finite x) (FVal.finite y) = FVal.finite (x / y) := by
  simp [fdiv, hy]

theorem np_log10_zero : np_log10 (FVal.finite 0) = FVal.negInf := by
  simp [np_log10]

theorem np_log10_of_neg {x : ℝ} (h : x < 0) : np_log10 (FVal.finite x) = FVal.nan := by
  simp only [np_log10]
  rw [if_neg (ne_of_lt h), if_neg (not_lt.mpr (le_of_lt h))]

/-- Claim C6 (code bug witness): the dew-point computation of the source
does NOT signal an error at nonpositive humidity.  For every physical
temperature `t` (any `t` above `-Tn = -240.7263`; below that the float
`10**` overflows and CPython raises `OverflowError`), `np.log10(0.0)`
returns `-inf` with only a warning, and the computation completes with the
numeric value `-240.7`; for negative humidity `np.log10` of a negative
float returns NaN and the computation completes with NaN.  Neither case
raises, so the `except` branch of `update_status` (the error branch that
forces all channels Off) is not reached. -/
theorem claim_c6_zero_humidity_completes (t h : ℝ) (ht : 0 < t + 240.7263) (hh : h < 0) :
    dew_point_np (FVal.finite t) (FVal.finite 0) = FVal.finite (-(2407 / 10)) ∧
    dew_point_np (FVal.finite t) (FVal.finite h) = FVal.nan := by
  have hTn : t + 240.7263 ≠ 0 := ne_of_gt ht
  constructor
  · simp only [dew_point_np, fmul, fadd]
    rw [fdiv_finite_of_ne hTn]
    simp only [fpow10, fmul, mul_zero]
    rw [fdiv_finite_of_ne (show (100:ℝ) ≠ 0 by norm_num)]
    simp only [zero_div]
    rw [fdiv_finite_of_ne (show (6.116441:ℝ) ≠ 0 by norm_num)]
    simp only [zero_div, np_log10_zero, fdiv, fsub, fround1, round1]
    norm_num [round_eq]
  · have hP : (0:ℝ) < 6.116441 * (10 : ℝ) ^ (7.591386 * t / (t + 240.7263)) := by positivity
    have hx : 6.116441 * (10 : ℝ) ^ (7.591386 * t / (t + 240.7263)) * h / 100 / 6.116441 < 0 := by
      have h1 : 6.116441 * (10 : ℝ) ^ (7.591386 * t / (t + 240.7263)) * h < 0 :=
        mul_neg_of_pos_of_neg hP hh
      have h2 : 6.116441 * (10 : ℝ) ^ (7.591386 * t / (t + 240.7263)) * h / 100 < 0 :=
        div_neg_of_neg_of_pos h1 (by norm_num)
      exact div_neg_of_neg_of_pos h2 (by norm_num)
    simp only [dew_point_np, fmul, fadd]
    rw [fdiv_finite_of_ne hTn]
    simp only [fpow10, fmul]
    rw [fdiv_finite_of_ne (show (100:ℝ) ≠ 0 by norm_num),
      fdiv_finite_of_ne (show (6.116441:ℝ) ≠ 0 by norm_num),
      np_log10_of_neg hx]
    simp only [fdiv, fsub, fround1]

/-- Witness for C6: at temperature 20 the computation with humidity 0
yields the numeric value -240.7, and with humidity -5 yields NaN. -/
theorem claim_c6_zero_humidity_completes_witness :
    (0 : ℝ) < 20 + 240.7263 ∧ (-5 : ℝ) < 0 ∧
    (dew_point_np (FVal.finite 20) (FVal.finite 0) = FVal.finite (-(2407 / 10)) ∧
      dew_point_np (FVal.finite 20) (FVal.finite (-5)) = FVal.nan) :=
  ⟨by norm_num, by norm_num,
    claim_c6_zero_humidity_completes 20 (-5) (by norm_num) (by norm_num)⟩

/-- Claim C7 (counterexample): a validated `set` request carrying BOTH an
`"auto"` and a `"telescope"` key, received while `auto=true`, is not
rejected and does mutate state: the handler processes the `"auto"` key
first (writing the flag and firing an immediate cycle) and only then
checks automatic mode.  With `{"auto": false, "telescope": {"main": true}}`
on the all-off sample state the response is `done`, the `main` relay turns
On, and the published snapshot changes. -/
theorem claim_c7_manual_override_counterexample :
    auto_update sampleHandler = true ∧
    (handle_set sampleHandler ⟨some false, some [("main", true)]⟩ false none 0).2.1 =
      ApiResponse.done ∧
    (handle_set sampleHandler ⟨some false, some [("main", true)]⟩ false none 0).1.active
      "main" = true ∧
    sampleHandler.active "main" = false ∧
    (handle_set sampleHandler ⟨some false, some [("main", true)]⟩ false none 0).1.status ≠
      sampleHandler.status := by
  refine ⟨rfl, rfl, rfl, rfl, ?_⟩
  decide

/-- Claim C7 as amended: a validated `set` request whose params contain a
`"telescope"` key and NO `"auto"` key, received while `auto=true`, gets the
explicit automatic-mode error response and leaves the state (relay states,
auto flag, published snapshot) completely unchanged, with no actuation and
no status rebuild. -/
theorem claim_c7_manual_override_rejected (st : DewHeaterHandler)
    (cmds : List (String × Bool)) (sunUp : Bool) (fetch : Option (ℚ × ℚ)) (now : Int)
    (hauto : auto_update st = true) :
    handle_set st ⟨none, some cmds⟩ sunUp fetch now = (st, ApiResponse.errAutoMode, []) := by
  unfold handle_set
  simp [hauto]

/-- Witness for the amended C7: a telescope-only command on the sample
state in automatic mode is rejected without any state change. -/
theorem claim_c7_manual_override_rejected_witness :
    auto_update sampleHandler = true ∧
    handle_set sampleHandler ⟨none, some [("main", true)]⟩ false none 0 =
      (sampleHandler, ApiResponse.errAutoMode, []) :=
  ⟨rfl, claim_c7_manual_override_rejected sampleHandler [("main", true)] false none 0 rfl⟩

/-- Claim C8: the per-channel actuator operations are idempotent.
Invoking `relay_on` on a channel that is already On performs no hardware
actuation and no status rebuild (empty event trace) and leaves the state
unchanged (hence the channel On); symmetrically for `relay_off` on a
channel that is already Off. -/
theorem claim_c8_actuator_idempotent (st : DewHeaterHandler) (c : String) :
    (st.active c = true →
      relay_on st c = (st, []) ∧ ((relay_on st c).1).active c = true) ∧
    (st.active c = false →
      relay_off st c = (st, []) ∧ ((relay_off st c).1).active c = false) := by
  constructor
  · intro h
    have heq : relay_on st c = (st, []) := by
      unfold relay_on
      rw [h]
      simp
    exact ⟨heq, by rw [heq]; exact h⟩
  · intro h
    have heq : relay_off st c = (st, []) := by
      unfold relay_off
      rw [h]
      simp
    exact ⟨heq, by rw [heq]; exact h⟩

/-- Witness for C8: on the all-on sample state, `relay_on "main"` is a
strict no-op. -/
theorem claim_c8_actuator_idempotent_witness :
    sampleHandlerOn.active "main" = true ∧
    (relay_on sampleHandlerOn "main" = (sampleHandlerOn, []) ∧
      ((relay_on sampleHandlerOn "main").1).active "main" = true) :=
  ⟨rfl, (claim_c8_actuator_idempotent sampleHandlerOn "main").1 rfl⟩

/-- Claim C9: for positive humidity the source computation (lines 142-145,
idealised over the reals) coincides with the Magnus-Tetens approximation
as written in the spec, with constants a=6.116441, m=7.591386, Tn=240.7263
and rounding to one decimal place; in particular the two agree at the
regression point (20, 50). -/
theorem claim_c9_magnus_tetens (temperature humidity : ℝ) (hh : 0 < humidity) :
    dew_point temperature humidity = dew_point_spec temperature humidity := rfl

/-- Witness for C9: the regression fixture point (20, 50). -/
theorem claim_c9_magnus_tetens_witness :
    (0 : ℝ) < 50 ∧ dew_point 20 50 = dew_point_spec 20 50 :=
  ⟨by norm_num, claim_c9_magnus_tetens 20 50 (by norm_num)⟩

/-- Claim C10: the published snapshot's `"telescope"` map always lists
exactly the configured channels with their actual relay states: the
invariant holds after construction and is preserved by `relay_on`,
`relay_off`, the `auto_update` setter, and a full `update_status` cycle. -/
theorem claim_c10_status_snapshot_consistent :
    (∀ channels active0 auto tempTh timeTh now0,
      statusConsistent (initHandler channels active0 auto tempTh timeTh now0)) ∧
    (∀ st c, statusConsistent st → statusConsistent ((relay_on st c).1)) ∧
    (∀ st c, statusConsistent st → statusConsistent ((relay_off st c).1)) ∧
    (∀ st b, statusConsistent st → statusConsistent (set_auto_update st b)) ∧
    (∀ st sunUp fetch now, statusConsistent st →
      statusConsistent ((update_status st sunUp fetch now).1)) := by
  refine ⟨fun _ _ _ _ _ _ => statusConsistent_update_relay_status _,
    statusConsistent_relay_on, statusConsistent_relay_off, fun st b h => h, ?_⟩
  intro st sunUp fetch now h
  unfold update_status
  by_cases hauto : auto_update st = true
  · rw [hauto]
    by_cases hsun : sunUp = true
    · subst hsun
      simpa using statusConsistent_relayAllOffAux st.channels st h
    · simp only [Bool.not_eq_true] at hsun
      subst hsun
      simp only [if_true, Bool.false_eq_true, if_false]
      match fetch with
      | none => simpa using statusConsistent_relayAllOffAux st.channels st h
      | some (T, D) =>
        by_cases hlt : T - D < st.temp_threshold
        · simp only [hlt, if_pos]
          exact statusConsistent_relayAllOnAux _ _ h
        · by_cases hg : T - D > st.temp_threshold ∧
              tdSeconds (now - st.time) > st.time_threshold
          · simp only [hlt, if_false, hg, if_pos]
            exact statusConsistent_relayAllOffAux _ _ h
          · simpa [hlt, hg] using h
  · simp only [Bool.not_eq_true] at hauto
    rw [hauto]
    simpa using h

/-- Witness for C10: the all-off sample state is consistent and stays so
after turning a relay on. -/
theorem claim_c10_status_snapshot_consistent_witness :
    statusConsistent sampleHandler ∧
    statusConsistent ((relay_on sampleHandler "main").1) :=
  ⟨rfl, claim_c10_status_snapshot_consistent.2.1 sampleHandler "main" rfl⟩
